import Mathlib

/-!
Verification of the weather-risk module (`src/server/weather-risk.py`).

The module is shallowly embedded over the rationals: Python floats become
`ℚ`, dataclasses become structures, the Tomorrow.io HTTP call becomes an
explicit `FetchOutcome` parameter (a successful response carries the five
optional fields of the JSON body; a failed request carries the error
message), and the loops of `assess_all_assets` / `generate_geojson`
become `List.map`.
-/

namespace WeatherRisk

/-- Embeds the dataclass `AssetLocation`: an insured asset with location
and metadata. -/
structure AssetLocation where
  name : String
  lat : ℚ
  lon : ℚ
  asset_type : String
  insured_value : ℚ
deriving DecidableEq, Repr

/-- Embeds the dataclass `WeatherData`: weather data from the
Tomorrow.io API. -/
structure WeatherData where
  fire_index : ℚ
  wind_speed : ℚ
  temperature : ℚ
  humidity : ℚ
  precipitation : ℚ
deriving DecidableEq, Repr

/-- Embeds the dataclass `RiskAssessment`: risk assessment for an
asset. -/
structure RiskAssessment where
  asset : AssetLocation
  weather : WeatherData
  risk_score : ℚ
  risk_level : String
deriving DecidableEq, Repr

/-- Embeds the dictionary lookup
`asset_multipliers.get(asset.asset_type, 1.0)` from
`calculate_risk_score` (lines 215-223): a fixed table with default
1.0 for unrecognized categories. -/
def asset_multipliers (asset_type : String) : ℚ :=
  if asset_type = "commercial" then 1
  else if asset_type = "critical_infrastructure" then 3/2
  else if asset_type = "hospitality" then 6/5
  else if asset_type = "industrial" then 13/10
  else if asset_type = "logistics" then 9/10
  else 1

/-- Embeds `WeatherRiskCalculator.calculate_risk_score`
(lines 191-234). -/
def calculate_risk_score (weather : WeatherData) (asset : AssetLocation) : ℚ :=
  let fire_wind_risk := weather.fire_index * (weather.wind_speed / 10)
  let temp_factor := max 1 (weather.temperature / 25)
  let humidity_factor := max 1 ((100 - weather.humidity) / 50)
  let precip_factor := max (1/10) (1 - weather.precipitation / 5)
  let asset_factor := asset_multipliers asset.asset_type
  let risk_score :=
    fire_wind_risk * temp_factor * humidity_factor * precip_factor * asset_factor
  min 100 (max 0 risk_score)

/-- The unclamped product of the five factors of `calculate_risk_score`
(lines 226-232), before the final `min(100.0, max(0.0, ...))`. -/
def raw_risk_score (weather : WeatherData) (asset : AssetLocation) : ℚ :=
  weather.fire_index * (weather.wind_speed / 10)
    * max 1 (weather.temperature / 25)
    * max 1 ((100 - weather.humidity) / 50)
    * max (1/10) (1 - weather.precipitation / 5)
    * asset_multipliers asset.asset_type

/-- Embeds `WeatherRiskCalculator.get_risk_level` (lines 236-243). -/
def get_risk_level (risk_score : ℚ) : String :=
  if risk_score < 25 then "low"
  else if risk_score < 60 then "medium"
  else "high"

/-- Outcome of the HTTP request in `fetch_weather_data`: a successful
response carries the (possibly absent) five fields of
`data["data"]["values"]`; a `requests.exceptions.RequestException`
carries its message. -/
inductive FetchOutcome where
  | success (fireIndex windSpeed temperature humidity precipitationIntensity : Option ℚ)
  | failure (err : String)
deriving DecidableEq, Repr

/-- Embeds `WeatherRiskCalculator.fetch_weather_data` (lines 139-189):
on success each missing field defaults to `0.0` via `values.get`; on a
request failure the fixed fallback reading is returned. -/
def fetch_weather_data : FetchOutcome → WeatherData
  | .success fi ws t h p =>
      { fire_index := fi.getD 0
        wind_speed := ws.getD 0
        temperature := t.getD 0
        humidity := h.getD 0
        precipitation := p.getD 0 }
  | .failure _ =>
      { fire_index := 1
        wind_speed := 5
        temperature := 20
        humidity := 50
        precipitation := 0 }

/-- The per-asset body of the loop in `assess_all_assets`
(lines 254-271): fetch the weather, score it, classify it, and
assemble a `RiskAssessment`. -/
def assessOne (outcome : ℚ → ℚ → FetchOutcome) (asset : AssetLocation) :
    RiskAssessment :=
  let weather := fetch_weather_data (outcome asset.lat asset.lon)
  let risk_score := calculate_risk_score weather asset
  let risk_level := get_risk_level risk_score
  { asset := asset, weather := weather
    risk_score := risk_score, risk_level := risk_level }

/-- Embeds `WeatherRiskCalculator.assess_all_assets` (lines 245-273),
with the configured asset list and the per-coordinate request outcome
as explicit parameters. -/
def assess_all_assets (assets : List AssetLocation)
    (outcome : ℚ → ℚ → FetchOutcome) : List RiskAssessment :=
  assets.map (assessOne outcome)

/-- Round-half-to-even of a rational to an integer, the rounding rule of
Python's built-in `round`. -/
def roundHalfToEven (x : ℚ) : ℤ :=
  let n := Int.floor x
  let frac := x - n
  if frac < 1/2 then n
  else if 1/2 < frac then n + 1
  else if n % 2 = 0 then n else n + 1

/-- Embeds Python's `round(x, 2)`: rounding to 2 decimal places. -/
def round2 (x : ℚ) : ℚ := (roundHalfToEven (x * 100) : ℚ) / 100

/-- The `"properties"` dictionary of one GeoJSON feature
(lines 294-305). -/
structure FeatureProperties where
  name : String
  asset_type : String
  insured_value : ℚ
  fire_index : ℚ
  wind_speed : ℚ
  temperature : ℚ
  humidity : ℚ
  precipitation : ℚ
  risk_score : ℚ
  risk_level : String
deriving DecidableEq, Repr

/-- One GeoJSON feature (lines 288-306): a typed record with a point
geometry and the properties dictionary. -/
structure Feature where
  type : String
  geometry_type : String
  coordinates : List ℚ
  properties : FeatureProperties
deriving DecidableEq, Repr

/-- The `"metadata"` dictionary of the feature collection
(lines 312-316). -/
structure CollectionMetadata where
  generated_at : String
  total_assets : ℕ
  data_source : String
deriving DecidableEq, Repr

/-- The GeoJSON FeatureCollection envelope (lines 309-317). -/
structure FeatureCollection where
  type : String
  features : List Feature
  metadata : CollectionMetadata
deriving DecidableEq, Repr

/-- The per-assessment body of the loop in `generate_geojson`
(lines 287-307). -/
def toFeature (assessment : RiskAssessment) : Feature :=
  { type := "Feature"
    geometry_type := "Point"
    coordinates := [assessment.asset.lon, assessment.asset.lat]
    properties :=
      { name := assessment.asset.name
        asset_type := assessment.asset.asset_type
        insured_value := assessment.asset.insured_value
        fire_index := round2 assessment.weather.fire_index
        wind_speed := round2 assessment.weather.wind_speed
        temperature := round2 assessment.weather.temperature
        humidity := round2 assessment.weather.humidity
        precipitation := round2 assessment.weather.precipitation
        risk_score := round2 assessment.risk_score
        risk_level := assessment.risk_level } }

/-- Embeds `WeatherRiskCalculator.generate_geojson` (lines 275-317). -/
def generate_geojson (assessments : List RiskAssessment) : FeatureCollection :=
  let features := assessments.map toFeature
  { type := "FeatureCollection"
    features := features
    metadata :=
      { generated_at := "2025-01-31T20:42:00Z"
        total_assets := features.length
        data_source := "Tomorrow.io Weather API" } }

section SpecSide

/-- The asset-factor table as the spec words it: commercial=1.0,
critical_infrastructure=1.5, hospitality=1.2, industrial=1.3,
logistics=0.9; unrecognized category defaults to 1.0. (Spec-side
definition, to be compared with `asset_multipliers`.) -/
def spec_asset_factor (category : String) : ℚ :=
  if category = "commercial" then 1
  else if category = "critical_infrastructure" then 3/2
  else if category = "hospitality" then 6/5
  else if category = "industrial" then 13/10
  else if category = "logistics" then 9/10
  else 1

/-- The 7-step scoring formula exactly as the spec states it.
(Spec-side definition, to be compared with `calculate_risk_score`.) -/
def spec_score (weather : WeatherData) (asset : AssetLocation) : ℚ :=
  let fire_wind := weather.fire_index * (weather.wind_speed / 10)
  let temp_factor := max 1 (weather.temperature / 25)
  let humidity_factor := max 1 ((100 - weather.humidity) / 50)
  let precip_factor := max (1/10) (1 - weather.precipitation / 5)
  let asset_factor := spec_asset_factor asset.asset_type
  min 100 (max 0
    (fire_wind * temp_factor * humidity_factor * precip_factor * asset_factor))

end SpecSide

/-- The asset multiplier is one of the five table values or the
default 1. -/
lemma asset_multipliers_cases (t : String) :
    asset_multipliers t = 1 ∨ asset_multipliers t = 3/2 ∨
    asset_multipliers t = 6/5 ∨ asset_multipliers t = 13/10 ∨
    asset_multipliers t = 9/10 := by
  unfold asset_multipliers
  split_ifs <;> simp

/-- The asset multiplier is positive. -/
lemma asset_multipliers_pos (t : String) : 0 < asset_multipliers t := by
  rcases asset_multipliers_cases t with h | h | h | h | h <;> rw [h] <;> norm_num

/-- The asset multiplier never exceeds 3/2. -/
lemma asset_multipliers_le (t : String) : asset_multipliers t ≤ 3/2 := by
  rcases asset_multipliers_cases t with h | h | h | h | h <;> rw [h] <;> norm_num

/-- `calculate_risk_score` is the clamp of the raw factor product. -/
lemma calculate_risk_score_eq_clamp (w : WeatherData) (a : AssetLocation) :
    calculate_risk_score w a = min 100 (max 0 (raw_risk_score w a)) := rfl

/-- **C1.** For every `WeatherReading` and every `Asset`,
`calculate_risk_score` returns exactly the 7-step formula of the spec:
the product of `fire_wind`, `temp_factor`, `humidity_factor`,
`precip_factor` and the table-looked-up `asset_factor`, clamped
into [0, 100]. -/
theorem calculate_risk_score_is_spec_formula
    (w : WeatherData) (a : AssetLocation) :
    calculate_risk_score w a = spec_score w a := rfl

/-- **C2.** `get_risk_level` returns "low" iff the score is below 25,
"medium" iff it is in [25, 60), and "high" iff it is at least 60; in
particular 25 maps to "medium" and 60 maps to "high". -/
theorem get_risk_level_thresholds (s : ℚ) :
    (get_risk_level s = "low" ↔ s < 25) ∧
    (get_risk_level s = "medium" ↔ 25 ≤ s ∧ s < 60) ∧
    (get_risk_level s = "high" ↔ 60 ≤ s) ∧
    get_risk_level 25 = "medium" ∧ get_risk_level 60 = "high" := by
  unfold get_risk_level
  refine ⟨?_, ?_, ?_, by norm_num, by norm_num⟩ <;>
    split_ifs with h1 h2 <;> simp_all <;> linarith

/-- **C3.** For every weather reading and every asset — with no
restriction on the numeric fields or the category string — the risk
score lies in the closed interval [0, 100]. -/
theorem calculate_risk_score_mem_Icc (w : WeatherData) (a : AssetLocation) :
    0 ≤ calculate_risk_score w a ∧ calculate_risk_score w a ≤ 100 := by
  rw [calculate_risk_score_eq_clamp]
  exact ⟨le_min (by norm_num) (le_max_left 0 _), min_le_left 100 _⟩

/-- Clamping into [0, 100] is monotone. -/
lemma clamp_mono {x y : ℚ} (hxy : x ≤ y) :
    min 100 (max 0 x) ≤ min 100 (max 0 y) :=
  min_le_min le_rfl (max_le_max le_rfl hxy)

/-- The temperature and humidity factors are nonnegative. -/
lemma max_one_nonneg (x : ℚ) : 0 ≤ max 1 x :=
  le_trans zero_le_one (le_max_left 1 x)

/-- The precipitation factor is nonnegative. -/
lemma precip_factor_nonneg (x : ℚ) : (0 : ℚ) ≤ max (1/10) x :=
  le_trans (by norm_num) (le_max_left (1/10 : ℚ) x)

/-- Master inequality: the raw factor product is monotone when each
factor grows, as long as fire index and wind speed stay nonnegative. -/
lemma raw_risk_score_le_raw_risk_score (a : AssetLocation)
    {fi ws t h p fi' ws' t' h' p' : ℚ}
    (hfi0 : 0 ≤ fi) (hws0 : 0 ≤ ws)
    (h1 : fi ≤ fi') (h2 : ws ≤ ws')
    (h3 : max 1 (t/25) ≤ max 1 (t'/25))
    (h4 : max 1 ((100 - h)/50) ≤ max 1 ((100 - h')/50))
    (h5 : max (1/10) (1 - p/5) ≤ max (1/10) (1 - p'/5)) :
    raw_risk_score ⟨fi, ws, t, h, p⟩ a ≤ raw_risk_score ⟨fi', ws', t', h', p'⟩ a := by
  have hfi'0 : 0 ≤ fi' := le_trans hfi0 h1
  have hws'0 : 0 ≤ ws' := le_trans hws0 h2
  have hA : fi * (ws/10) ≤ fi' * (ws'/10) :=
    mul_le_mul h1 (by linarith) (by positivity) hfi'0
  have hA'0 : (0 : ℚ) ≤ fi' * (ws'/10) := by positivity
  have hB : fi * (ws/10) * max 1 (t/25) ≤ fi' * (ws'/10) * max 1 (t'/25) :=
    mul_le_mul hA h3 (max_one_nonneg _) hA'0
  have hB'0 : (0 : ℚ) ≤ fi' * (ws'/10) * max 1 (t'/25) :=
    mul_nonneg hA'0 (max_one_nonneg _)
  have hC : fi * (ws/10) * max 1 (t/25) * max 1 ((100 - h)/50) ≤
      fi' * (ws'/10) * max 1 (t'/25) * max 1 ((100 - h')/50) :=
    mul_le_mul hB h4 (max_one_nonneg _) hB'0
  have hC'0 : (0 : ℚ) ≤ fi' * (ws'/10) * max 1 (t'/25) * max 1 ((100 - h')/50) :=
    mul_nonneg hB'0 (max_one_nonneg _)
  have hD : fi * (ws/10) * max 1 (t/25) * max 1 ((100 - h)/50)
        * max (1/10) (1 - p/5) ≤
      fi' * (ws'/10) * max 1 (t'/25) * max 1 ((100 - h')/50)
        * max (1/10) (1 - p'/5) :=
    mul_le_mul hC h5 (precip_factor_nonneg _) hC'0
  exact mul_le_mul_of_nonneg_right hD (le_of_lt (asset_multipliers_pos _))

/-- **C4.** On any request failure, `fetch_weather_data` returns the
fixed fallback reading (fire_index=1, wind_speed=5, temperature=20,
humidity=50, precipitation=0); being a total function into
`WeatherData`, it never signals failure to the caller. -/
theorem fetch_weather_data_failure_fallback (err : String) :
    fetch_weather_data (.failure err) =
      { fire_index := 1, wind_speed := 5, temperature := 20
        humidity := 50, precipitation := 0 } := rfl

/-- **C5.** With nonnegative weather fields (humidity in [0,100]) and a
fixed asset, the risk score is non-decreasing in fire index alone, in
wind speed alone, and in temperature alone above 25, and non-increasing
in humidity alone and in precipitation alone, all other inputs held
fixed. -/
theorem calculate_risk_score_monotone
    (a : AssetLocation) (fi ws t h p : ℚ)
    (hfi : 0 ≤ fi) (hws : 0 ≤ ws) (ht : 0 ≤ t)
    (hh0 : 0 ≤ h) (hh1 : h ≤ 100) (hp : 0 ≤ p) :
    (∀ fi', fi ≤ fi' →
      calculate_risk_score ⟨fi, ws, t, h, p⟩ a ≤
        calculate_risk_score ⟨fi', ws, t, h, p⟩ a) ∧
    (∀ ws', ws ≤ ws' →
      calculate_risk_score ⟨fi, ws, t, h, p⟩ a ≤
        calculate_risk_score ⟨fi, ws', t, h, p⟩ a) ∧
    (∀ t', 25 ≤ t → t ≤ t' →
      calculate_risk_score ⟨fi, ws, t, h, p⟩ a ≤
        calculate_risk_score ⟨fi, ws, t', h, p⟩ a) ∧
    (∀ h', h ≤ h' →
      calculate_risk_score ⟨fi, ws, t, h', p⟩ a ≤
        calculate_risk_score ⟨fi, ws, t, h, p⟩ a) ∧
    (∀ p', p ≤ p' →
      calculate_risk_score ⟨fi, ws, t, h, p'⟩ a ≤
        calculate_risk_score ⟨fi, ws, t, h, p⟩ a) := by
  refine ⟨?_, ?_, ?_, ?_, ?_⟩
  · intro fi' hle
    rw [calculate_risk_score_eq_clamp, calculate_risk_score_eq_clamp]
    exact clamp_mono (raw_risk_score_le_raw_risk_score a hfi hws hle le_rfl
      le_rfl le_rfl le_rfl)
  · intro ws' hle
    rw [calculate_risk_score_eq_clamp, calculate_risk_score_eq_clamp]
    exact clamp_mono (raw_risk_score_le_raw_risk_score a hfi hws le_rfl hle
      le_rfl le_rfl le_rfl)
  · intro t' _ hle
    rw [calculate_risk_score_eq_clamp, calculate_risk_score_eq_clamp]
    exact clamp_mono (raw_risk_score_le_raw_risk_score a hfi hws le_rfl le_rfl
      (max_le_max le_rfl (by linarith)) le_rfl le_rfl)
  · intro h' hle
    rw [calculate_risk_score_eq_clamp, calculate_risk_score_eq_clamp]
    exact clamp_mono (raw_risk_score_le_raw_risk_score a hfi hws le_rfl le_rfl
      le_rfl (max_le_max le_rfl (by linarith)) le_rfl)
  · intro p' hle
    rw [calculate_risk_score_eq_clamp, calculate_risk_score_eq_clamp]
    exact clamp_mono (raw_risk_score_le_raw_risk_score a hfi hws le_rfl le_rfl
      le_rfl le_rfl (max_le_max le_rfl (by linarith)))

/-- Witness for C5: all five monotonicity directions at a concrete
reading and a concrete commercial asset. -/
theorem calculate_risk_score_monotone_witness :
    (calculate_risk_score ⟨1, 5, 30, 40, 0⟩
        ⟨"Los Angeles Office Complex", 34, -118, "commercial", 5000000⟩ ≤
      calculate_risk_score ⟨2, 5, 30, 40, 0⟩
        ⟨"Los Angeles Office Complex", 34, -118, "commercial", 5000000⟩) ∧
    (calculate_risk_score ⟨1, 5, 30, 40, 0⟩
        ⟨"Los Angeles Office Complex", 34, -118, "commercial", 5000000⟩ ≤
      calculate_risk_score ⟨1, 8, 30, 40, 0⟩
        ⟨"Los Angeles Office Complex", 34, -118, "commercial", 5000000⟩) ∧
    (calculate_risk_score ⟨1, 5, 30, 40, 0⟩
        ⟨"Los Angeles Office Complex", 34, -118, "commercial", 5000000⟩ ≤
      calculate_risk_score ⟨1, 5, 35, 40, 0⟩
        ⟨"Los Angeles Office Complex", 34, -118, "commercial", 5000000⟩) ∧
    (calculate_risk_score ⟨1, 5, 30, 70, 0⟩
        ⟨"Los Angeles Office Complex", 34, -118, "commercial", 5000000⟩ ≤
      calculate_risk_score ⟨1, 5, 30, 40, 0⟩
        ⟨"Los Angeles Office Complex", 34, -118, "commercial", 5000000⟩) ∧
    (calculate_risk_score ⟨1, 5, 30, 40, 2⟩
        ⟨"Los Angeles Office Complex", 34, -118, "commercial", 5000000⟩ ≤
      calculate_risk_score ⟨1, 5, 30, 40, 0⟩
        ⟨"Los Angeles Office Complex", 34, -118, "commercial", 5000000⟩) :=
  have hm := calculate_risk_score_monotone
    ⟨"Los Angeles Office Complex", 34, -118, "commercial", 5000000⟩
    1 5 30 40 0 (by norm_num) (by norm_num) (by norm_num) (by norm_num)
    (by norm_num) (by norm_num)
  ⟨hm.1 2 (by norm_num), hm.2.1 8 (by norm_num),
    hm.2.2.1 35 (by norm_num) (by norm_num), hm.2.2.2.1 70 (by norm_num),
    hm.2.2.2.2 2 (by norm_num)⟩

/-- **C6.** `assess_all_assets` yields one assessment per configured
asset, in list order, each combining the asset, its fetched (or
fallback) reading, `calculate_risk_score` and `get_risk_level`; and the
assessment of asset `i` depends only on the fetch outcome at asset
`i`'s coordinates, so a fetch failure for one asset leaves every other
assessment unchanged. -/
theorem assess_all_assets_spec (assets : List AssetLocation)
    (o o2 : ℚ → ℚ → FetchOutcome) :
    (assess_all_assets assets o).length = assets.length ∧
    (∀ i (hi : i < assets.length) (hi2 : i < (assess_all_assets assets o).length),
      (assess_all_assets assets o).get ⟨i, hi2⟩ =
        { asset := assets.get ⟨i, hi⟩
          weather := fetch_weather_data
            (o (assets.get ⟨i, hi⟩).lat (assets.get ⟨i, hi⟩).lon)
          risk_score := calculate_risk_score
            (fetch_weather_data
              (o (assets.get ⟨i, hi⟩).lat (assets.get ⟨i, hi⟩).lon))
            (assets.get ⟨i, hi⟩)
          risk_level := get_risk_level (calculate_risk_score
            (fetch_weather_data
              (o (assets.get ⟨i, hi⟩).lat (assets.get ⟨i, hi⟩).lon))
            (assets.get ⟨i, hi⟩)) }) ∧
    (∀ i (hi : i < assets.length)
        (hi2 : i < (assess_all_assets assets o).length)
        (hi3 : i < (assess_all_assets assets o2).length),
      o (assets.get ⟨i, hi⟩).lat (assets.get ⟨i, hi⟩).lon =
          o2 (assets.get ⟨i, hi⟩).lat (assets.get ⟨i, hi⟩).lon →
      (assess_all_assets assets o).get ⟨i, hi2⟩ =
        (assess_all_assets assets o2).get ⟨i, hi3⟩) := by
  refine ⟨by simp [assess_all_assets], ?_, ?_⟩
  · intro i hi hi2
    simp [assess_all_assets, assessOne]
  · intro i hi hi2 hi3 hoo
    simp only [assess_all_assets, List.get_map, assessOne, hoo]

/-- Witness for C6: with two concrete assets, a fetch failure at the
first asset's coordinates gives that asset the fallback reading and
produces the same second assessment as a fully successful run. -/
theorem assess_all_assets_spec_witness :
    (assess_all_assets
        [⟨"A", 1, 10, "commercial", 100⟩, ⟨"B", 2, 20, "logistics", 200⟩]
        (fun lat _ => if lat = 1 then .failure "timeout"
          else .success (some 2) (some 20) (some 30) (some 20) (some 0))).get
      ⟨0, by simp [assess_all_assets]⟩ =
      { asset := ⟨"A", 1, 10, "commercial", 100⟩
        weather := ⟨1, 5, 20, 50, 0⟩
        risk_score := calculate_risk_score ⟨1, 5, 20, 50, 0⟩
          ⟨"A", 1, 10, "commercial", 100⟩
        risk_level := get_risk_level (calculate_risk_score ⟨1, 5, 20, 50, 0⟩
          ⟨"A", 1, 10, "commercial", 100⟩) } ∧
    (assess_all_assets
        [⟨"A", 1, 10, "commercial", 100⟩, ⟨"B", 2, 20, "logistics", 200⟩]
        (fun lat _ => if lat = 1 then .failure "timeout"
          else .success (some 2) (some 20) (some 30) (some 20) (some 0))).get
      ⟨1, by simp [assess_all_assets]⟩ =
    (assess_all_assets
        [⟨"A", 1, 10, "commercial", 100⟩, ⟨"B", 2, 20, "logistics", 200⟩]
        (fun _ _ =>
          .success (some 2) (some 20) (some 30) (some 20) (some 0))).get
      ⟨1, by simp [assess_all_assets]⟩ :=
  have hs := assess_all_assets_spec
    [⟨"A", 1, 10, "commercial", 100⟩, ⟨"B", 2, 20, "logistics", 200⟩]
    (fun lat _ => if lat = 1 then .failure "timeout"
      else .success (some 2) (some 20) (some 30) (some 20) (some 0))
    (fun _ _ => .success (some 2) (some 20) (some 30) (some 20) (some 0))
  ⟨by rw [hs.2.1 0 (by norm_num) (by simp [assess_all_assets])]
      simp [fetch_weather_data],
   hs.2.2 1 (by norm_num) (by simp [assess_all_assets])
     (by simp [assess_all_assets]) (by norm_num)⟩

/-- **C7.** `calculate_risk_score` is total over all rational inputs and
every category string: its value is always exactly the clamp of the raw
factor product, a negative raw product is clamped to 0, a raw product
above 100 is clamped to 100, and an in-range raw product passes through
unchanged — so clamping alone guards the output range. -/
theorem calculate_risk_score_total_clamped (w : WeatherData) (a : AssetLocation) :
    calculate_risk_score w a = min 100 (max 0 (raw_risk_score w a)) ∧
    (raw_risk_score w a < 0 → calculate_risk_score w a = 0) ∧
    (100 < raw_risk_score w a → calculate_risk_score w a = 100) ∧
    (0 ≤ raw_risk_score w a → raw_risk_score w a ≤ 100 →
      calculate_risk_score w a = raw_risk_score w a) := by
  refine ⟨rfl, ?_, ?_, ?_⟩
  · intro hneg
    rw [calculate_risk_score_eq_clamp, max_eq_left (le_of_lt hneg)]
    exact min_eq_right (by norm_num)
  · intro hbig
    rw [calculate_risk_score_eq_clamp,
      max_eq_right (le_of_lt (lt_trans (by norm_num) hbig))]
    exact min_eq_left (le_of_lt hbig)
  · intro h0 h100
    rw [calculate_risk_score_eq_clamp, max_eq_right h0]
    exact min_eq_right h100

/-- Witness for C7: a negative fire index drives the raw product below
zero and the score is clamped to 0; a large fire index drives it above
100 and the score is clamped to 100; an in-range raw product passes
through unchanged. -/
theorem calculate_risk_score_total_clamped_witness :
    calculate_risk_score ⟨-1, 10, 0, 0, 0⟩ ⟨"A", 0, 0, "commercial", 100⟩ = 0 ∧
    calculate_risk_score ⟨100, 20, 0, 0, 0⟩ ⟨"A", 0, 0, "commercial", 100⟩ = 100 ∧
    calculate_risk_score ⟨2, 20, 30, 20, 0⟩ ⟨"A", 0, 0, "commercial", 100⟩ =
      raw_risk_score ⟨2, 20, 30, 20, 0⟩ ⟨"A", 0, 0, "commercial", 100⟩ :=
  ⟨(calculate_risk_score_total_clamped ⟨-1, 10, 0, 0, 0⟩
      ⟨"A", 0, 0, "commercial", 100⟩).2.1
    (by norm_num [raw_risk_score, asset_multipliers, max_def]),
   (calculate_risk_score_total_clamped ⟨100, 20, 0, 0, 0⟩
      ⟨"A", 0, 0, "commercial", 100⟩).2.2.1
    (by norm_num [raw_risk_score, asset_multipliers, max_def]),
   (calculate_risk_score_total_clamped ⟨2, 20, 30, 20, 0⟩
      ⟨"A", 0, 0, "commercial", 100⟩).2.2.2
    (by norm_num [raw_risk_score, asset_multipliers, max_def])
    (by norm_num [raw_risk_score, asset_multipliers, max_def])⟩

/-- **C8.** For every list of N assessments, `generate_geojson` returns
a FeatureCollection with exactly N features, one per assessment in
order, each a Point feature with coordinates [lon, lat], properties
carrying the five weather fields and the risk score rounded to 2
decimal places, the risk level, and the asset metadata, with metadata
recording the asset count N. -/
theorem generate_geojson_spec (assessments : List RiskAssessment) :
    (generate_geojson assessments).type = "FeatureCollection" ∧
    (generate_geojson assessments).features.length = assessments.length ∧
    (generate_geojson assessments).metadata.total_assets = assessments.length ∧
    (∀ i (hi : i < assessments.length)
        (hi2 : i < (generate_geojson assessments).features.length),
      (generate_geojson assessments).features.get ⟨i, hi2⟩ =
        { type := "Feature"
          geometry_type := "Point"
          coordinates := [(assessments.get ⟨i, hi⟩).asset.lon,
            (assessments.get ⟨i, hi⟩).asset.lat]
          properties :=
            { name := (assessments.get ⟨i, hi⟩).asset.name
              asset_type := (assessments.get ⟨i, hi⟩).asset.asset_type
              insured_value := (assessments.get ⟨i, hi⟩).asset.insured_value
              fire_index := round2 (assessments.get ⟨i, hi⟩).weather.fire_index
              wind_speed := round2 (assessments.get ⟨i, hi⟩).weather.wind_speed
              temperature :=
                round2 (assessments.get ⟨i, hi⟩).weather.temperature
              humidity := round2 (assessments.get ⟨i, hi⟩).weather.humidity
              precipitation :=
                round2 (assessments.get ⟨i, hi⟩).weather.precipitation
              risk_score := round2 (assessments.get ⟨i, hi⟩).risk_score
              risk_level := (assessments.get ⟨i, hi⟩).risk_level } }) := by
  refine ⟨rfl, by simp [generate_geojson], by simp [generate_geojson], ?_⟩
  intro i hi hi2
  simp [generate_geojson, toFeature]

/-- Witness for C8: the single feature generated for one concrete
assessment, with [lon, lat] coordinate order and rounded weather
fields. -/
theorem generate_geojson_spec_witness :
    (generate_geojson
        [⟨⟨"A", 34, -118, "commercial", 100⟩, ⟨1234/1000, 5, 20, 50, 0⟩,
          617/1000, "low"⟩]).features.get
      ⟨0, by simp [generate_geojson]⟩ =
      { type := "Feature"
        geometry_type := "Point"
        coordinates := [-118, 34]
        properties :=
          { name := "A", asset_type := "commercial", insured_value := 100
            fire_index := round2 (1234/1000), wind_speed := round2 5
            temperature := round2 20, humidity := round2 50
            precipitation := round2 0, risk_score := round2 (617/1000)
            risk_level := "low" } } :=
  (generate_geojson_spec
      [⟨⟨"A", 34, -118, "commercial", 100⟩, ⟨1234/1000, 5, 20, 50, 0⟩,
        617/1000, "low"⟩]).2.2.2
    0 (by norm_num) (by simp [generate_geojson])

/-- **C9.** Scoring the failure-fallback reading yields exactly
`0.5 * asset_factor` for every category, which is at most 3/4;
hence every asset whose weather fetch fails is classified "low". -/
theorem fallback_reading_scores_low (a : AssetLocation) :
    calculate_risk_score (fetch_weather_data (.failure "any error")) a =
      1/2 * asset_multipliers a.asset_type ∧
    calculate_risk_score (fetch_weather_data (.failure "any error")) a ≤ 3/4 ∧
    get_risk_level
      (calculate_risk_score (fetch_weather_data (.failure "any error")) a) =
      "low" := by
  have hc : calculate_risk_score (fetch_weather_data (.failure "any error")) a =
      min 100 (max 0 ((1 : ℚ) * (5/10) * max 1 (20/25) * max 1 ((100 - 50)/50)
        * max (1/10) (1 - 0/5) * asset_multipliers a.asset_type)) := rfl
  rcases asset_multipliers_cases a.asset_type with h | h | h | h | h <;>
    rw [hc, h] <;>
    exact ⟨by norm_num [min_def, max_def],
      by norm_num [min_def, max_def],
      by norm_num [get_risk_level, min_def, max_def]⟩

/-- **C10.** A successful response defaults each absent field to 0 — not
to the failure-fallback values — so a response missing all five fields
yields the all-zero reading, whose risk score is 0 and whose level is
"low" for every asset. -/
theorem fetch_success_missing_fields_default :
    (∀ fi ws t h p : Option ℚ,
      fetch_weather_data (.success fi ws t h p) =
        { fire_index := fi.getD 0, wind_speed := ws.getD 0
          temperature := t.getD 0, humidity := h.getD 0
          precipitation := p.getD 0 }) ∧
    fetch_weather_data (.success none none none none none) =
      { fire_index := 0, wind_speed := 0, temperature := 0
        humidity := 0, precipitation := 0 } ∧
    (∀ a : AssetLocation,
      calculate_risk_score
        (fetch_weather_data (.success none none none none none)) a = 0 ∧
      get_risk_level (calculate_risk_score
        (fetch_weather_data (.success none none none none none)) a) =
        "low") := by
  refine ⟨fun fi ws t h p => rfl, rfl, ?_⟩
  intro a
  have hc : calculate_risk_score
      (fetch_weather_data (.success none none none none none)) a =
      min 100 (max 0 ((0 : ℚ) * (0/10) * max 1 (0/25) * max 1 ((100 - 0)/50)
        * max (1/10) (1 - 0/5) * asset_multipliers a.asset_type)) := rfl
  rw [hc]
  norm_num [get_risk_level]

end WeatherRisk
